import Mathlib

/-!
Shallow embedding of the SIP calculator engine (`sipUtils` in
`src/SIPCalculator.jsx`) over exact rational arithmetic, together with
theorems settling the specification claims.

The JavaScript source computes over IEEE doubles; the embedding uses `ℚ`
(the claims are stated "exactly over exact real arithmetic").
`Math.round x` in JavaScript is `⌊x + 1/2⌋` (ties and negative halves round
toward +∞), embedded as `jsRound`.  `Math.floor (years / 10)` on the natural
`years` is Lean's natural-number division, and `%` is `Nat.mod`.
-/

namespace sipUtils

/-- JavaScript `Math.round`: floor of `x + 1/2`. -/
def jsRound (x : ℚ) : ℤ := ⌊x + 1/2⌋

/-- One month of the simulation loops: `totalValue = (totalValue + c) * (1 + monthlyRate)`
(line 29 / 52 / 82–83 of the source). -/
def monthStep (r c v : ℚ) : ℚ := (v + c) * (1 + r)

/-- `sipUtils.calculateNormalSIP` (source lines 6–20). -/
def calculateNormalSIP (monthlyInvestment annualReturn : ℚ) (years : ℕ) : ℚ :=
  let monthlyRate := annualReturn / 12 / 100
  let months := years * 12
  if monthlyRate = 0 then
    monthlyInvestment * months
  else
    monthlyInvestment * ((1 + monthlyRate) ^ months - 1) / monthlyRate * (1 + monthlyRate)

/-- The year loop of `sipUtils.calculateStepUpSIP` (source lines 27–32): each
iteration runs 12 month steps with the current contribution, then steps the
contribution up. -/
def stepUpGo (r sp : ℚ) : ℕ → ℚ → ℚ → ℚ
  | 0, _, v => v
  | n + 1, c, v => stepUpGo r sp n (c * (1 + sp / 100)) ((monthStep r c)^[12] v)

/-- `sipUtils.calculateStepUpSIP` (source lines 22–35). -/
def calculateStepUpSIP (monthlyInvestment annualReturn : ℚ) (years : ℕ)
    (stepUpPercent : ℚ) : ℚ :=
  stepUpGo (annualReturn / 12 / 100) stepUpPercent years monthlyInvestment 0

/-- `sipUtils.calculateInflationAdjusted` (source lines 37–39). -/
def calculateInflationAdjusted (futureValue inflationRate : ℚ) (years : ℕ) : ℚ :=
  futureValue / (1 + inflationRate / 100) ^ years

/-- One record of the yearly breakdown (source lines 57–64); all scalar fields
are rounded at emission. -/
structure BreakdownRow where
  year : ℕ
  monthlyInvestment : ℤ
  yearlyInvestment : ℤ
  totalInvested : ℤ
  yearEndValue : ℤ
  returns : ℤ
  deriving Repr, DecidableEq

/-- One month of `generateYearlyBreakdown`'s inner loop (source lines 51–55),
acting on the state `(totalValue, yearlyInvestment, totalInvested)`. -/
def breakdownMonth (r c : ℚ) (s : ℚ × ℚ × ℚ) : ℚ × ℚ × ℚ :=
  ((s.1 + c) * (1 + r), s.2.1 + c, s.2.2 + c)

/-- The year loop of `sipUtils.generateYearlyBreakdown` (source lines 48–67):
state is the current year number, the full-precision `totalValue`, the current
monthly contribution and the full-precision `totalInvested`. -/
def breakdownGo (r sp : ℚ) : ℕ → ℕ → ℚ → ℚ → ℚ → List BreakdownRow
  | 0, _, _, _, _ => []
  | n + 1, year, tv, c, ti =>
    let s := (breakdownMonth r c)^[12] (tv, 0, ti)
    { year := year
      monthlyInvestment := jsRound c
      yearlyInvestment := jsRound s.2.1
      totalInvested := jsRound s.2.2
      yearEndValue := jsRound s.1
      returns := jsRound (s.1 - s.2.2) } ::
      breakdownGo r sp n (year + 1) s.1 (c * (1 + sp / 100)) s.2.2

/-- `sipUtils.generateYearlyBreakdown` (source lines 41–70). -/
def generateYearlyBreakdown (monthlyInvestment annualReturn : ℚ) (years : ℕ)
    (stepUpPercent : ℚ) : List BreakdownRow :=
  breakdownGo (annualReturn / 12 / 100) stepUpPercent years 1 0 monthlyInvestment 0

/-- The full-precision end-of-year balances of the breakdown simulation: the
value of `totalValue` at each `breakdown.push` (source line 62), before the
rounding applied to the emitted field.  Same recursion as `breakdownGo`,
restricted to the running balance. -/
def yearEndBalances (r sp : ℚ) : ℕ → ℚ → ℚ → List ℚ
  | 0, _, _ => []
  | n + 1, c, v =>
    let v' := (monthStep r c)^[12] v
    v' :: yearEndBalances r sp n (c * (1 + sp / 100)) v'

/-- The full-precision `(totalValue, totalInvested)` pairs at each
`breakdown.push` (source lines 57–64), before the rounding applied to the
emitted fields.  Same recursion as `breakdownGo`, restricted to the running
balance and the cumulative contribution: the inner loop adds the constant
contribution `c` twelve times, so the year adds `12 * c` to `totalInvested`. -/
def breakdownTrace (r sp : ℚ) : ℕ → ℚ → ℚ → ℚ → List (ℚ × ℚ)
  | 0, _, _, _ => []
  | n + 1, tv, c, ti =>
    let v' := (monthStep r c)^[12] tv
    let ti' := ti + 12 * c
    (v', ti') :: breakdownTrace r sp n v' (c * (1 + sp / 100)) ti'

/-- One chart sample (source lines 87–91). -/
structure ChartPoint where
  year : ℕ
  normalSIP : ℤ
  stepUpSIP : ℤ
  deriving Repr, DecidableEq

/-- The year loop of `sipUtils.generateChartData` (source lines 80–95): runs
the constant and step-up simulations in parallel and emits a point when
`year % max 1 (years / 10) = 0` or `year = years`. -/
def chartGo (r sp m : ℚ) (years : ℕ) : ℕ → ℕ → ℚ → ℚ → ℚ → List ChartPoint
  | 0, _, _, _, _ => []
  | n + 1, year, nv, sv, sm =>
    let nv' := (monthStep r m)^[12] nv
    let sv' := (monthStep r sm)^[12] sv
    (if year % max 1 (years / 10) = 0 ∨ year = years then
      [{ year := year, normalSIP := jsRound nv', stepUpSIP := jsRound sv' }]
    else []) ++
      chartGo r sp m years n (year + 1) nv' sv' (sm * (1 + sp / 100))

/-- `sipUtils.generateChartData` (source lines 72–98). -/
def generateChartData (monthlyInvestment annualReturn : ℚ) (years : ℕ)
    (stepUpPercent : ℚ) : List ChartPoint :=
  chartGo (annualReturn / 12 / 100) stepUpPercent monthlyInvestment years years 1 0 0
    monthlyInvestment

end sipUtils

namespace sipUtils

/-! ### Closed forms for the month-step iterates -/

/-- At a zero monthly rate the month step is plain accumulation: iterating it
`n` times adds `n` contributions. -/
theorem monthStep_iterate_zero_rate (c v : ℚ) (n : ℕ) :
    (monthStep 0 c)^[n] v = v + n * c := by
  induction n with
  | zero => simp
  | succ n ih =>
      rw [Function.iterate_succ_apply', ih, monthStep]
      push_cast
      ring

/-- Closed form of the month-step iterate at a nonzero monthly rate: the
future-value-of-annuity-due expression. -/
theorem monthStep_iterate (r c : ℚ) (hr : r ≠ 0) (v : ℚ) (n : ℕ) :
    (monthStep r c)^[n] v = v * (1 + r) ^ n + c * (1 + r) * ((1 + r) ^ n - 1) / r := by
  induction n with
  | zero => simp
  | succ n ih =>
      rw [Function.iterate_succ_apply', ih, monthStep]
      field_simp
      ring

/-- The breakdown inner loop tracks the month-step balance in its first
component and accumulates `n` contributions in the other two. -/
theorem breakdownMonth_iterate (r c : ℚ) (s : ℚ × ℚ × ℚ) (n : ℕ) :
    (breakdownMonth r c)^[n] s = ((monthStep r c)^[n] s.1, s.2.1 + n * c, s.2.2 + n * c) := by
  induction n with
  | zero => simp
  | succ n ih =>
      rw [Function.iterate_succ_apply', ih, Function.iterate_succ_apply', breakdownMonth,
        monthStep]
      push_cast
      refine Prod.ext ?_ (Prod.ext ?_ ?_) <;> simp <;> ring

/-- With `stepUpPercent = 0` the step-up year loop never changes the
contribution, so it is `12 * n` plain month steps. -/
theorem stepUpGo_zero_step (r : ℚ) (n : ℕ) (c v : ℚ) :
    stepUpGo r 0 n c v = (monthStep r c)^[12 * n] v := by
  induction n generalizing v with
  | zero => simp [stepUpGo]
  | succ n ih =>
      simp only [stepUpGo, zero_div, add_zero, mul_one]
      rw [ih, ← Function.iterate_add_apply]
      congr 1

/-! ### Claims C1, C5, C6, C9 -/

/-- C1: for every monthly investment `m`, annual return `r` and positive
horizon `y`, `calculateStepUpSIP m r y 0 = calculateNormalSIP m r y`, exactly
over exact rational arithmetic. -/
theorem claim_C1_zero_stepup_equiv (m r : ℚ) (y : ℕ) (hy : 0 < y) :
    calculateStepUpSIP m r y 0 = calculateNormalSIP m r y := by
  unfold calculateStepUpSIP calculateNormalSIP
  rw [stepUpGo_zero_step]
  by_cases hr : r / 12 / 100 = 0
  · rw [if_pos hr, hr, monthStep_iterate_zero_rate]
    push_cast
    ring
  · rw [if_neg hr, monthStep_iterate _ _ hr, Nat.mul_comm 12 y]
    field_simp
    ring

/-- Witness for C1 at `m = 5000`, `r = 12`, `y = 3`. -/
theorem claim_C1_witness :
    0 < 3 ∧ calculateStepUpSIP 5000 12 3 0 = calculateNormalSIP 5000 12 3 :=
  ⟨by decide, claim_C1_zero_stepup_equiv 5000 12 3 (by decide)⟩

/-- C5: with `annualReturnPercent = 0`, `calculateNormalSIP` returns exactly
`m * y * 12`, via the linear-sum branch. -/
theorem claim_C5_zero_rate_linear (m : ℚ) (y : ℕ) (hy : 0 < y) :
    calculateNormalSIP m 0 y = m * y * 12 := by
  simp only [calculateNormalSIP]
  norm_num
  push_cast
  ring

/-- Witness for C5 at `m = 1000`, `y = 5` (the spec's degenerate scenario:
future value `60000`). -/
theorem claim_C5_witness :
    0 < 5 ∧ calculateNormalSIP 1000 0 5 = 1000 * (5 : ℕ) * 12 :=
  ⟨by decide, claim_C5_zero_rate_linear 1000 5 (by decide)⟩

/-- C6: with a nonzero monthly rate, `calculateNormalSIP` returns the
future-value-of-annuity-due formula
`m * ((1 + monthlyRate) ^ (y * 12) - 1) / monthlyRate * (1 + monthlyRate)`. -/
theorem claim_C6_annuity_due (m r : ℚ) (y : ℕ) (hr : r / 12 / 100 ≠ 0) :
    calculateNormalSIP m r y =
      m * ((1 + r / 12 / 100) ^ (y * 12) - 1) / (r / 12 / 100) * (1 + r / 12 / 100) := by
  simp only [calculateNormalSIP]
  rw [if_neg hr]

/-- Witness for C6 at `m = 5000`, `r = 12`, `y = 10`. -/
theorem claim_C6_witness :
    (12 : ℚ) / 12 / 100 ≠ 0 ∧
      calculateNormalSIP 5000 12 10 =
        5000 * ((1 + 12 / 12 / 100) ^ (10 * 12) - 1) / (12 / 12 / 100) * (1 + 12 / 12 / 100) :=
  ⟨by norm_num, claim_C6_annuity_due 5000 12 10 (by norm_num)⟩

/-- C9: `calculateInflationAdjusted fv i y = fv / (1 + i/100) ^ y`; it is the
identity at `i = 0`, strictly antitone in the inflation rate (for `fv > 0`,
`0 ≤ i`, `y ≥ 1`), and strictly antitone in the horizon (for `fv > 0`,
`i > 0`). -/
theorem claim_C9_inflation_adjustment (fv i : ℚ) (y : ℕ) :
    calculateInflationAdjusted fv i y = fv / (1 + i / 100) ^ y ∧
    calculateInflationAdjusted fv 0 y = fv ∧
    (0 < fv → 1 ≤ y → ∀ i1 i2 : ℚ, 0 ≤ i1 → i1 < i2 →
      calculateInflationAdjusted fv i2 y < calculateInflationAdjusted fv i1 y) ∧
    (0 < fv → 0 < i → ∀ y1 y2 : ℕ, 1 ≤ y1 → y1 < y2 →
      calculateInflationAdjusted fv i y2 < calculateInflationAdjusted fv i y1) := by
  refine ⟨rfl, by simp [calculateInflationAdjusted], ?_, ?_⟩
  · intro hfv hy i1 i2 h1 h12
    unfold calculateInflationAdjusted
    refine div_lt_div_of_pos_left hfv (pow_pos (by linarith) y) ?_
    exact pow_lt_pow_left₀ (by linarith) (by linarith) (by omega)
  · intro hfv hi y1 y2 hy1 h12
    unfold calculateInflationAdjusted
    refine div_lt_div_of_pos_left hfv (pow_pos (by linarith) y1) ?_
    exact pow_lt_pow_right₀ (by linarith) h12

/-- Witness for C9 at `fv = 100`, `i = 6`, comparing horizons 1 and 2. -/
theorem claim_C9_witness :
    calculateInflationAdjusted 100 6 2 < calculateInflationAdjusted 100 6 1 :=
  (claim_C9_inflation_adjustment 100 6 2).2.2.2 (by norm_num) (by norm_num) 1 2
    (by norm_num) (by norm_num)



/-! ### Claim C2 -/

/-- Zero is a fixed point of the month step with zero contribution. -/
theorem monthStep_zero_contrib_iterate (r : ℚ) (n : ℕ) : (monthStep r 0)^[n] 0 = 0 :=
  Function.iterate_fixed (by simp [monthStep]) n

/-- With a zero contribution and zero starting balance the step-up year loop
returns `0` for any number of years. -/
theorem stepUpGo_zero_investment (r sp : ℚ) (n : ℕ) : stepUpGo r sp n 0 0 = 0 := by
  induction n with
  | zero => rfl
  | succ n ih =>
      simp only [stepUpGo, zero_mul, monthStep_zero_contrib_iterate]
      exact ih

/-- `calculateNormalSIP` returns `0` on a zero-year horizon. -/
theorem calculateNormalSIP_zero_years (m r : ℚ) : calculateNormalSIP m r 0 = 0 := by
  simp [calculateNormalSIP]

/-- `calculateNormalSIP` returns `0` on a zero monthly investment. -/
theorem calculateNormalSIP_zero_investment (r : ℚ) (y : ℕ) : calculateNormalSIP 0 r y = 0 := by
  simp [calculateNormalSIP]

/-- C2 (amended): if `years = 0` or `monthlyInvestment = 0` then both future
values are `0`, and if `years = 0` then the breakdown and the chart are empty
sequences; these are returned as ordinary values, not errors.  (When
`monthlyInvestment = 0` with `years ≥ 1` the code still emits one record per
year — see the counterexample — so emptiness holds only for `years = 0`.) -/
theorem claim_C2_degenerate_inputs (m r sp : ℚ) (y : ℕ) :
    ((y = 0 ∨ m = 0) → calculateNormalSIP m r y = 0 ∧ calculateStepUpSIP m r y sp = 0) ∧
    (y = 0 → generateYearlyBreakdown m r y sp = [] ∧ generateChartData m r y sp = []) := by
  constructor
  · rintro (rfl | rfl)
    · exact ⟨calculateNormalSIP_zero_years m r, rfl⟩
    · exact ⟨calculateNormalSIP_zero_investment r y, stepUpGo_zero_investment _ _ y⟩
  · rintro rfl
    exact ⟨rfl, rfl⟩

/-- Witness for C2 at `m = 5`, `r = 12`, `sp = 7`, `years = 0`. -/
theorem claim_C2_witness :
    calculateNormalSIP 5 12 0 = 0 ∧ calculateStepUpSIP 5 12 0 7 = 0 ∧
      generateYearlyBreakdown 5 12 0 7 = [] ∧ generateChartData 5 12 0 7 = [] := by
  obtain ⟨h1, h2⟩ := claim_C2_degenerate_inputs 5 12 7 0
  exact ⟨(h1 (Or.inl rfl)).1, (h1 (Or.inl rfl)).2, (h2 rfl).1, (h2 rfl).2⟩

/-- C2 counterexample: with `monthlyInvestment = 0` and `years = 1` the
breakdown and the chart are not empty — the year loop emits one (all-zero)
record per year regardless of the investment amount. -/
theorem claim_C2_counterexample :
    generateYearlyBreakdown 0 12 1 0 ≠ [] ∧ generateChartData 0 12 1 0 ≠ [] := by
  have h1 : (generateYearlyBreakdown 0 12 1 0).length = 1 := rfl
  have h2 : (generateChartData 0 12 1 0).length = 1 := rfl
  exact ⟨List.ne_nil_of_length_pos (by omega), List.ne_nil_of_length_pos (by omega)⟩

/-! ### Chart series: sampling characterisation (claims C3, C7, C10) -/

/-- The years of the points produced by `chartGo` are exactly the years in
`[year, year + n)` that pass the sampling test
`t % max 1 (years / 10) = 0 ∨ t = years`, in order. -/
theorem chartGo_map_year (r sp m : ℚ) (years n : ℕ) :
    ∀ (year : ℕ) (nv sv sm : ℚ),
      (chartGo r sp m years n year nv sv sm).map ChartPoint.year =
        (List.range' year n).filter
          (fun t => decide (t % max 1 (years / 10) = 0) || decide (t = years)) := by
  induction n with
  | zero => intro year nv sv sm; rfl
  | succ n ih =>
      intro year nv sv sm
      rw [List.range'_succ, List.filter_cons]
      by_cases h1 : year % max 1 (years / 10) = 0
      · simp [chartGo, ih, h1]
      · by_cases h2 : year = years
        · simp [chartGo, ih, h1, h2]
        · simp [chartGo, ih, h1, h2]

/-- A disjunctive count is at most the sum of the two counts. -/
theorem countP_or_le {α : Type} (p q : α → Bool) (l : List α) :
    (l.countP fun a => p a || q a) ≤ l.countP p + l.countP q := by
  induction l with
  | nil => simp
  | cons a l ih =>
      by_cases hp : p a <;> by_cases hq : q a <;>
        simp [List.countP_cons, hp, hq] <;> omega

/-- The number of multiples of `s` among `1, …, n` is `n / s`. -/
theorem countP_mod_range' (s : ℕ) (hs : 0 < s) (n : ℕ) :
    (List.range' 1 n).countP (fun t => decide (t % s = 0)) = n / s := by
  induction n with
  | zero => simp
  | succ n ih =>
      rw [List.range'_1_concat, List.countP_append, ih, Nat.succ_div]
      by_cases h : s ∣ (n + 1)
      · have hm : (1 + n) % s = 0 := by
          rw [Nat.add_comm]
          exact Nat.dvd_iff_mod_eq_zero.mp h
        simp [h, hm]
      · have hm : ¬((1 + n) % s = 0) := by
          rw [Nat.add_comm]
          intro hc
          exact h (Nat.dvd_iff_mod_eq_zero.mpr hc)
        simp [h, hm]

/-- In `range' s m` at most one element equals any given `k`. -/
theorem countP_eq_le_one (k s m : ℕ) :
    (List.range' s m).countP (fun t => decide (t = k)) ≤ 1 := by
  induction m generalizing s with
  | zero => simp
  | succ m ih =>
      rw [List.range'_succ, List.countP_cons]
      by_cases h : s = k
      · subst h
        have hz : (List.range' (s + 1) m).countP (fun t => decide (t = s)) = 0 := by
          rw [List.countP_eq_zero]
          intro t ht
          have := (List.mem_range'_1.mp ht).1
          simp only [decide_eq_true_eq]
          omega
        simp [hz]
      · simp [h]
        exact ih (s + 1)

/-- C3 (amended): `generateChartData` emits a sample exactly at the year
boundaries where `year % max 1 (years / 10) = 0` or `year = years`, and the
series never has more than 19 points, a bound independent of the horizon
(the bound 19 is attained at `years = 19`; the claimed `≤ ~11` fails for
horizons between 11 and 19 years, where the stride `max 1 (years / 10)` is
still 1, and more generally whenever `years` is well above a multiple of 10). -/
theorem claim_C3_chart_sampling (m r sp : ℚ) (y : ℕ) :
    (generateChartData m r y sp).map ChartPoint.year =
      (List.range' 1 y).filter
        (fun t => decide (t % max 1 (y / 10) = 0) || decide (t = y)) ∧
    (generateChartData m r y sp).length ≤ 19 := by
  have hmap := chartGo_map_year (r / 12 / 100) sp m y y 1 0 0 m
  refine ⟨hmap, ?_⟩
  have hlen : (generateChartData m r y sp).length =
      ((List.range' 1 y).filter
        (fun t => decide (t % max 1 (y / 10) = 0) || decide (t = y))).length := by
    rw [← hmap, List.length_map]
    rfl
  rw [hlen, ← List.countP_eq_length_filter]
  by_cases hy : y ≤ 19
  · calc (List.range' 1 y).countP _ ≤ (List.range' 1 y).length := List.countP_le_length _
      _ = y := List.length_range' ..
      _ ≤ 19 := hy
  · push_neg at hy
    have hs : max 1 (y / 10) = y / 10 := by
      have : 2 ≤ y / 10 := by omega
      omega
    have hk2 : 2 ≤ y / 10 := by omega
    have hdm := Nat.div_add_mod y 10
    have hmod : y % 10 < 10 := Nat.mod_lt y (by omega)
    have hdivle : y / (y / 10) < 15 := by
      apply Nat.div_lt_of_lt_mul
      omega
    calc (List.range' 1 y).countP _
        ≤ (List.range' 1 y).countP (fun t => decide (t % max 1 (y / 10) = 0)) +
            (List.range' 1 y).countP (fun t => decide (t = y)) := countP_or_le _ _ _
      _ ≤ y / (y / 10) + 1 := by
          rw [hs, countP_mod_range' (y / 10) (by omega) y]
          exact Nat.add_le_add_left (countP_eq_le_one y 1 y) _
      _ ≤ 19 := by omega

/-- C3 counterexample: at `years = 19` the stride is still `1`, every year is
sampled, and the chart has 19 points, exceeding the claimed `≤ ~11` bound. -/
theorem claim_C3_counterexample :
    (generateChartData 1 0 19 0).length = 19 ∧
      ¬((generateChartData 1 0 19 0).length ≤ 11) := by
  have h : (generateChartData 1 0 19 0).length = 19 := rfl
  exact ⟨h, by omega⟩

/-- Appending a kept element keeps it as the last element of a filter. -/
theorem filter_getLast_endpoint (p : ℕ → Bool) (n : ℕ) (hp : p (1 + n) = true) :
    ((List.range' 1 (n + 1)).filter p).getLast? = some (1 + n) := by
  rw [List.range'_1_concat, List.filter_append, List.getLast?_append]
  simp [List.filter_cons, hp]

/-- C7: for `years ≥ 1` the chart series is non-empty and its last point has
`year = years`, regardless of the sampling stride. -/
theorem claim_C7_chart_endpoint (m r sp : ℚ) (y : ℕ) (hy : 1 ≤ y) :
    generateChartData m r y sp ≠ [] ∧
      ((generateChartData m r y sp).map ChartPoint.year).getLast? = some y := by
  have hg : (generateChartData m r y sp).map ChartPoint.year =
      (List.range' 1 y).filter
        (fun t => decide (t % max 1 (y / 10) = 0) || decide (t = y)) :=
    chartGo_map_year (r / 12 / 100) sp m y y 1 0 0 m
  obtain ⟨n, rfl⟩ : ∃ n, y = n + 1 := ⟨y - 1, by omega⟩
  have hp : (decide ((1 + n) % max 1 ((n + 1) / 10) = 0) || decide ((1 + n) = n + 1))
      = true := by
    simp only [Bool.or_eq_true, decide_eq_true_eq]
    exact Or.inr (by omega)
  have hlast := filter_getLast_endpoint
    (fun t => decide (t % max 1 ((n + 1) / 10) = 0) || decide (t = n + 1)) n hp
  rw [← hg, Nat.add_comm 1 n] at hlast
  refine ⟨?_, hlast⟩
  intro hnil
  rw [hnil] at hlast
  simp at hlast

/-- Witness for C7 at `years = 25` (stride 2, and 25 is not a multiple of 2:
the endpoint comes only from the `year = years` disjunct). -/
theorem claim_C7_witness :
    1 ≤ 25 ∧
      (generateChartData 1 0 25 0 ≠ [] ∧
        ((generateChartData 1 0 25 0).map ChartPoint.year).getLast? = some 25) :=
  ⟨by decide, claim_C7_chart_endpoint 1 0 0 25 (by decide)⟩

/-- C10: the year values of the chart points are strictly increasing, all lie
in `[1, years]`, and the final year appears exactly once — the stride test and
the endpoint test form a single disjunctive emission, so the endpoint is never
duplicated even when `years` is divisible by the stride. -/
theorem claim_C10_chart_years (m r sp : ℚ) (y : ℕ) (hy : 1 ≤ y) :
    ((generateChartData m r y sp).map ChartPoint.year).Pairwise (· < ·) ∧
    (∀ pt ∈ generateChartData m r y sp, 1 ≤ pt.year ∧ pt.year ≤ y) ∧
    ((generateChartData m r y sp).map ChartPoint.year).count y = 1 := by
  have hmap := chartGo_map_year (r / 12 / 100) sp m y y 1 0 0 m
  have hg : (generateChartData m r y sp).map ChartPoint.year =
      (List.range' 1 y).filter
        (fun t => decide (t % max 1 (y / 10) = 0) || decide (t = y)) := hmap
  refine ⟨?_, ?_, ?_⟩
  · rw [hg]
    exact (List.pairwise_lt_range' ..).filter _
  · intro pt hpt
    have hmem : pt.year ∈ (generateChartData m r y sp).map ChartPoint.year :=
      List.mem_map_of_mem ChartPoint.year hpt
    rw [hg] at hmem
    have := List.mem_range'_1.mp (List.mem_of_mem_filter hmem)
    omega
  · rw [hg, List.count_filter (by simp)]
    exact List.count_eq_one_of_mem (List.nodup_range' ..)
      (List.mem_range'_1.mpr (by omega))

/-- Witness for C10 at `years = 20` (stride 2 divides 20: the final year
passes both emission tests yet appears exactly once). -/
theorem claim_C10_witness :
    1 ≤ 20 ∧
      (((generateChartData 1 0 20 0).map ChartPoint.year).Pairwise (· < ·) ∧
        (∀ pt ∈ generateChartData 1 0 20 0, 1 ≤ pt.year ∧ pt.year ≤ 20) ∧
        ((generateChartData 1 0 20 0).map ChartPoint.year).count 20 = 1) :=
  ⟨by decide, claim_C10_chart_years 1 0 0 20 (by decide)⟩

/-! ### Yearly breakdown: rounding of the gain field (claim C4) -/

/-- The emitted `(yearEndValue, totalInvested, returns)` triples of the
breakdown year loop are exactly the `jsRound` images of the full-precision
trace: in particular `returns` rounds the full-precision difference, it does
not difference the rounded fields. -/
theorem breakdownGo_trace (r sp : ℚ) :
    ∀ (n year : ℕ) (tv c ti : ℚ),
      (breakdownGo r sp n year tv c ti).map
          (fun row => (row.yearEndValue, row.totalInvested, row.returns)) =
        (breakdownTrace r sp n tv c ti).map
          (fun s => (jsRound s.1, jsRound s.2, jsRound (s.1 - s.2))) := by
  intro n
  induction n with
  | zero => intro year tv c ti; rfl
  | succ n ih =>
      intro year tv c ti
      simp only [breakdownGo, breakdownTrace, List.map_cons, breakdownMonth_iterate]
      norm_num
      exact ih (year + 1) _ _ _

/-- Rounding a difference agrees with the difference of the roundings up to
one unit in either direction. -/
theorem jsRound_sub_bounds (a b : ℚ) :
    jsRound a - jsRound b - 1 ≤ jsRound (a - b) ∧
      jsRound (a - b) ≤ jsRound a - jsRound b + 1 := by
  unfold jsRound
  have h1 : (⌊a + 1/2⌋ : ℚ) ≤ a + 1/2 := Int.floor_le _
  have h2 : a + 1/2 < ⌊a + 1/2⌋ + 1 := Int.lt_floor_add_one _
  have h3 : (⌊b + 1/2⌋ : ℚ) ≤ b + 1/2 := Int.floor_le _
  have h4 : b + 1/2 < ⌊b + 1/2⌋ + 1 := Int.lt_floor_add_one _
  have h5 : (⌊a - b + 1/2⌋ : ℚ) ≤ a - b + 1/2 := Int.floor_le _
  have h6 : a - b + 1/2 < ⌊a - b + 1/2⌋ + 1 := Int.lt_floor_add_one _
  have key1 : ((⌊a + 1/2⌋ - ⌊b + 1/2⌋ - 2 : ℤ) : ℚ) < ((⌊a - b + 1/2⌋ : ℤ) : ℚ) := by
    push_cast
    linarith
  have key2 : ((⌊a - b + 1/2⌋ : ℤ) : ℚ) < ((⌊a + 1/2⌋ - ⌊b + 1/2⌋ + 2 : ℤ) : ℚ) := by
    push_cast
    linarith
  have k1 : ⌊a + 1/2⌋ - ⌊b + 1/2⌋ - 2 < ⌊a - b + 1/2⌋ := by exact_mod_cast key1
  have k2 : ⌊a - b + 1/2⌋ < ⌊a + 1/2⌋ - ⌊b + 1/2⌋ + 2 := by exact_mod_cast key2
  omega

/-- C4 (amended): the emitted `(yearEndValue, totalInvested, returns)` triples
of `generateYearlyBreakdown` are the `jsRound` images of the full-precision
simulation trace `breakdownTrace` — so each record's `returns` is the rounding
of the actual full-precision difference `endOfYearValue − cumulativeContributed`
while internal balances stay unrounded — and consequently every record's
`returns` agrees with the difference of its independently rounded
`yearEndValue` and `totalInvested` fields only up to ±1, not exactly. -/
theorem claim_C4_gain_field (m r sp : ℚ) (y : ℕ) (hm : 0 < m) (hy : 1 ≤ y) :
    (generateYearlyBreakdown m r y sp).map
        (fun row => (row.yearEndValue, row.totalInvested, row.returns)) =
      (breakdownTrace (r / 12 / 100) sp y 0 m 0).map
        (fun s => (jsRound s.1, jsRound s.2, jsRound (s.1 - s.2))) ∧
    ∀ row ∈ generateYearlyBreakdown m r y sp,
      row.yearEndValue - row.totalInvested - 1 ≤ row.returns ∧
      row.returns ≤ row.yearEndValue - row.totalInvested + 1 := by
  have htr : (generateYearlyBreakdown m r y sp).map
      (fun row => (row.yearEndValue, row.totalInvested, row.returns)) =
        (breakdownTrace (r / 12 / 100) sp y 0 m 0).map
          (fun s => (jsRound s.1, jsRound s.2, jsRound (s.1 - s.2))) :=
    breakdownGo_trace (r / 12 / 100) sp y 1 0 m 0
  refine ⟨htr, ?_⟩
  intro row hrow
  have hmem : (row.yearEndValue, row.totalInvested, row.returns) ∈
      (breakdownTrace (r / 12 / 100) sp y 0 m 0).map
        (fun s => (jsRound s.1, jsRound s.2, jsRound (s.1 - s.2))) := by
    rw [← htr]
    exact List.mem_map_of_mem _ hrow
  obtain ⟨s, _, heq⟩ := List.mem_map.mp hmem
  rw [Prod.ext_iff, Prod.ext_iff] at heq
  obtain ⟨h1, h2, h3⟩ := heq
  simp only at h1 h2 h3
  rw [← h1, ← h2, ← h3]
  exact ⟨(jsRound_sub_bounds s.1 s.2).1, (jsRound_sub_bounds s.1 s.2).2⟩

/-- Witness for C4 at `m = 1`, `r = 0`, `years = 1`, `sp = 0`. -/
theorem claim_C4_witness :
    (0 : ℚ) < 1 ∧ 1 ≤ 1 ∧
      ((generateYearlyBreakdown 1 0 1 0).map
          (fun row => (row.yearEndValue, row.totalInvested, row.returns)) =
        (breakdownTrace (0 / 12 / 100) 0 1 0 1 0).map
          (fun s => (jsRound s.1, jsRound s.2, jsRound (s.1 - s.2))) ∧
      ∀ row ∈ generateYearlyBreakdown 1 0 1 0,
        row.yearEndValue - row.totalInvested - 1 ≤ row.returns ∧
        row.returns ≤ row.yearEndValue - row.totalInvested + 1) :=
  ⟨by norm_num, by norm_num, claim_C4_gain_field 1 0 0 1 (by norm_num) (by norm_num)⟩

/-- C4 counterexample: at `m = 1/5`, `r = 12`, `years = 1`, `sp = 0` the single
record has `returns = 0` but `yearEndValue − totalInvested = 3 − 2 = 1`; the
rounded-field identity claimed does not hold. -/
theorem claim_C4_counterexample :
    (generateYearlyBreakdown (1/5) 12 1 0).map
        (fun row => (row.returns, row.yearEndValue, row.totalInvested)) =
      [(0, 3, 2)] ∧ (0 : ℤ) ≠ 3 - 2 := by
  constructor
  · norm_num [generateYearlyBreakdown, breakdownGo, breakdownMonth_iterate,
      monthStep_iterate (1/100 : ℚ) (1/5 : ℚ) (by norm_num), jsRound, Int.floor_eq_iff]
  · decide

/-! ### Yearly breakdown: monotonic growth (claim C8) -/

/-- The emitted `yearEndValue` fields are the roundings of the full-precision
end-of-year balances. -/
theorem breakdownGo_yearEndValues (r sp : ℚ) :
    ∀ (n year : ℕ) (tv c ti : ℚ),
      (breakdownGo r sp n year tv c ti).map BreakdownRow.yearEndValue =
        (yearEndBalances r sp n c tv).map jsRound := by
  intro n
  induction n with
  | zero => intro year tv c ti; rfl
  | succ n ih =>
      intro year tv c ti
      simp only [breakdownGo, yearEndBalances, List.map_cons, breakdownMonth_iterate]
      exact congrArg _ (ih (year + 1) _ _ _)

/-- A month step with positive contribution and nonnegative rate strictly
increases a nonnegative balance. -/
theorem monthStep_lt (r c v : ℚ) (hr : 0 ≤ r) (hc : 0 < c) (hv : 0 ≤ v) :
    v < monthStep r c v := by
  unfold monthStep
  nlinarith

/-- Month steps keep the balance nonnegative. -/
theorem monthStep_iterate_nonneg (r c : ℚ) (hr : 0 ≤ r) (hc : 0 < c) (n : ℕ) (v : ℚ)
    (hv : 0 ≤ v) : 0 ≤ (monthStep r c)^[n] v := by
  induction n generalizing v with
  | zero => simpa using hv
  | succ n ih =>
      rw [Function.iterate_succ_apply]
      exact ih _ (le_of_lt (lt_of_le_of_lt hv (monthStep_lt r c v hr hc hv)))

/-- At least one month step strictly increases a nonnegative balance. -/
theorem monthStep_iterate_lt (r c : ℚ) (hr : 0 ≤ r) (hc : 0 < c) (n : ℕ) (hn : 1 ≤ n)
    (v : ℚ) (hv : 0 ≤ v) : v < (monthStep r c)^[n] v := by
  induction n generalizing v with
  | zero => omega
  | succ n ih =>
      rw [Function.iterate_succ_apply]
      rcases Nat.eq_zero_or_pos n with rfl | hn2
      · simpa using monthStep_lt r c v hr hc hv
      · exact lt_trans (monthStep_lt r c v hr hc hv)
          (ih hn2 _ (le_of_lt (lt_of_le_of_lt hv (monthStep_lt r c v hr hc hv))))

/-- The full-precision end-of-year balances grow strictly along the breakdown,
starting from any nonnegative balance and positive contribution, for a
nonnegative monthly rate and nonnegative step-up. -/
theorem yearEndBalances_chain (r sp : ℚ) (hr : 0 ≤ r) (hsp : 0 ≤ sp) :
    ∀ (n : ℕ) (c v : ℚ), 0 < c → 0 ≤ v →
      List.Chain (· < ·) v (yearEndBalances r sp n c v) := by
  intro n
  induction n with
  | zero => intro c v hc hv; exact List.Chain.nil
  | succ n ih =>
      intro c v hc hv
      simp only [yearEndBalances]
      refine List.Chain.cons (monthStep_iterate_lt r c hr hc 12 (by omega) v hv) ?_
      refine ih (c * (1 + sp / 100)) _ ?_ (monthStep_iterate_nonneg r c hr hc 12 v hv)
      nlinarith

/-- A chain from a base point gives a chain on the list itself. -/
theorem chain_to_chain' {α : Type} {R : α → α → Prop} {a : α} {l : List α}
    (h : List.Chain R a l) : List.Chain' R l := by
  cases l with
  | nil => trivial
  | cons b t => exact (List.chain_cons.mp h).2

/-- C8 (amended): for `m > 0`, `r ≥ 0`, `sp ≥ 0` the full-precision
end-of-year balances are strictly increasing, and therefore the rounded
`yearEndValue` fields of `generateYearlyBreakdown` (their `jsRound` images)
are non-decreasing; strict increase of the emitted integers can be lost to
rounding when the yearly growth is below one currency unit (see the
counterexample). -/
theorem claim_C8_monotonic_growth (m r sp : ℚ) (y : ℕ) (hm : 0 < m) (hr : 0 ≤ r)
    (hsp : 0 ≤ sp) (hy : 1 ≤ y) :
    (generateYearlyBreakdown m r y sp).map BreakdownRow.yearEndValue =
        (yearEndBalances (r / 12 / 100) sp y m 0).map jsRound ∧
    List.Chain' (· < ·) (yearEndBalances (r / 12 / 100) sp y m 0) ∧
    List.Chain' (· ≤ ·) ((generateYearlyBreakdown m r y sp).map BreakdownRow.yearEndValue) := by
  have hmap : (generateYearlyBreakdown m r y sp).map BreakdownRow.yearEndValue =
      (yearEndBalances (r / 12 / 100) sp y m 0).map jsRound :=
    breakdownGo_yearEndValues (r / 12 / 100) sp y 1 0 m 0
  have hr12 : 0 ≤ r / 12 / 100 := by positivity
  have hchain := yearEndBalances_chain (r / 12 / 100) sp hr12 hsp y m 0 hm le_rfl
  have hstrict : List.Chain' (· < ·) (yearEndBalances (r / 12 / 100) sp y m 0) :=
    chain_to_chain' hchain
  refine ⟨hmap, hstrict, ?_⟩
  rw [hmap, List.chain'_map]
  exact hstrict.imp fun a b hab =>
    Int.floor_le_floor (by linarith)

/-- Witness for C8 at `m = 1`, `r = 0`, `sp = 0`, `years = 2`. -/
theorem claim_C8_witness :
    (0 : ℚ) < 1 ∧ (0 : ℚ) ≤ 0 ∧ 1 ≤ 2 ∧
      ((generateYearlyBreakdown 1 0 2 0).map BreakdownRow.yearEndValue =
          (yearEndBalances (0 / 12 / 100) 0 2 1 0).map jsRound ∧
        List.Chain' (· < ·) (yearEndBalances (0 / 12 / 100) 0 2 1 0) ∧
        List.Chain' (· ≤ ·) ((generateYearlyBreakdown 1 0 2 0).map BreakdownRow.yearEndValue)) :=
  ⟨by norm_num, le_rfl, by norm_num,
    claim_C8_monotonic_growth 1 0 0 2 (by norm_num) le_rfl le_rfl (by norm_num)⟩

/-- C8 counterexample: at `m = 1/100`, `r = 0`, `years = 2`, `sp = 0` the
hypotheses of the claim hold (`m > 0`, `r ≥ 0`), yet the emitted
`yearEndValue` fields are `[0, 0]` — not strictly increasing, because the
full-precision balances `0.12` and `0.24` both round to `0`. -/
theorem claim_C8_counterexample :
    (0 : ℚ) < 1/100 ∧
      (generateYearlyBreakdown (1/100) 0 2 0).map BreakdownRow.yearEndValue = [0, 0] ∧
      ¬ List.Chain' (· < ·)
          ((generateYearlyBreakdown (1/100) 0 2 0).map BreakdownRow.yearEndValue) := by
  have h2 : (generateYearlyBreakdown (1/100) 0 2 0).map BreakdownRow.yearEndValue = [0, 0] := by
    norm_num [generateYearlyBreakdown, breakdownGo, breakdownMonth_iterate,
      monthStep_iterate_zero_rate, jsRound, Int.floor_eq_iff]
  refine ⟨by norm_num, h2, ?_⟩
  rw [h2]
  simp [List.chain'_cons]

end sipUtils
